import Mathlib

/-!
Verification model of the RFdiffusion deployment wrapper.

The development shallowly embeds the two Python entry points of the
repository:

* `src/sagemaker/transform.py` — the batch transform job runner
  (`runCmd`, `maybe_download_models`, `main`), modelled over an explicit
  `World` oracle describing the filesystem and the behaviour of the
  external child processes;
* `src/src/inference.py` and `src/app.py` — the synchronous inference
  path (`predict`, `_collect_outputs`) and the HTTP adapter
  (`invocations`), modelled over a `SyncWorld` oracle.

Python strings are Lean `String`s; all string manipulation is implemented
by structural recursion over the underlying character lists so that every
definition evaluates inside the kernel.  Machine integers do not overflow
in any modelled path, so Python ints are `Int`/`Nat`.  A Python process
that returns normally corresponds to exit code 0; `sys.exit(1)` is made
explicit in the result type.
-/

/-! ### String utilities mirroring the Python primitives used by the code -/

/-- Lowercase a string character by character, as `str.lower` does for the
ASCII inputs handled by the code. -/
def pyLower (s : String) : String := String.mk (s.data.map Char.toLower)

/-- Boolean suffix test, as `str.endswith` (for a single suffix). -/
def pyEndsWith (s suf : String) : Bool :=
  suf.data == s.data.drop (s.data.length - suf.data.length)

/-- Boolean prefix test, mirroring the way `glob` and `str.startswith`
inspect leading characters. -/
def pyStartsWith (s p : String) : Bool := p.data == s.data.take p.data.length

/-- Strip leading and trailing whitespace, as `str.strip()`. -/
def pyStrip (s : String) : String :=
  String.mk (((s.data.dropWhile Char.isWhitespace).reverse.dropWhile Char.isWhitespace).reverse)

/-- The part of a path after the last slash, as `os.path.basename`. -/
def basename (s : String) : String :=
  String.mk ((s.data.reverse.takeWhile (fun c => c ≠ '/')).reverse)

/-- Everything up to the last slash of a path, including it. -/
def headPart (l : List Char) : List Char :=
  (l.reverse.dropWhile (fun c => c ≠ '/')).reverse

/-- The directory part of a path, as `os.path.dirname`. -/
def dirname (s : String) : String :=
  let h := headPart s.data
  if h.all (fun c => c = '/') then String.mk h
  else String.mk ((h.reverse.dropWhile (fun c => c = '/')).reverse)

/-- Join a directory and a relative component, as the two-argument
`os.path.join`. -/
def pyJoin (base nm : String) : String :=
  if pyStartsWith nm "/" then nm
  else if base = "" then nm
  else if pyEndsWith base "/" then base ++ nm
  else base ++ "/" ++ nm

/-- Character-level computation behind `pathlib.Path(p).stem`: drop the
last dot-suffix of a filename unless the dot is leading, trailing or
absent. -/
def stemChars (nm : List Char) : List Char :=
  if (nm.reverse.takeWhile (fun c => c ≠ '.')).length = nm.length then nm
  else if (nm.reverse.takeWhile (fun c => c ≠ '.')).length = 0 then nm
  else if (nm.reverse.takeWhile (fun c => c ≠ '.')).length + 1 = nm.length then nm
  else nm.take (nm.length - (nm.reverse.takeWhile (fun c => c ≠ '.')).length - 1)

/-- The filename without its final suffix, as `pathlib.Path(p).stem`. -/
def stemOf (p : String) : String := String.mk (stemChars (basename p).data)

/-- Characters that `shlex.quote` leaves unquoted. -/
def shSafe (c : Char) : Bool :=
  c.isAlphanum || c = '_' || c = '@' || c = '%' || c = '+' || c = '=' ||
  c = ':' || c = ',' || c = '.' || c = '/' || c = '-'

/-- Minimal model of `shlex.quote`. -/
def shquote (s : String) : String :=
  if s = "" then "''"
  else if s.data.all shSafe then s
  else "'" ++ String.mk ((s.data.map
    (fun c => if c = '\'' then "'\"'\"'".data else [c])).flatten) ++ "'"

/-- Lexicographic comparison of character lists by code point, the order
Python uses to compare strings. -/
def listLe : List Char → List Char → Bool
  | [], _ => true
  | _ :: _, [] => false
  | a :: as, b :: bs => if a < b then true else if b < a then false else listLe as bs

/-- Python's string order. -/
def strLe (a b : String) : Prop := listLe a.data b.data = true

instance : DecidableRel strLe :=
  fun a b => inferInstanceAs (Decidable (listLe a.data b.data = true))

/-- Model of Python `sorted` on strings. For a total order the result of
any comparison sort is determined, so a structural insertion sort is an
exact model. -/
def sortStr (l : List String) : List String := List.insertionSort strLe l

/-! ### Command Runner: `runCmd` of `src/sagemaker/transform.py`

A child process is abstracted by the timestamped lines it writes to its
merged output stream, the time it exits (when its stdout reaches
end-of-file and `readline` returns the empty string), and its exit code.
Timestamps are seconds since `start`, so the Python condition
`time.time() - start > timeout` becomes `t > timeout`. -/

structure ChildProc where
  events : List (Nat × String)
  exitTime : Nat
  exitCode : Int

/-- The line kept for the manifest snippet: `line.strip()[:500]`. -/
def truncLine (s : String) : String := String.mk ((pyStrip s).data.take 500)

/-- The Python truthiness-guarded timeout test
`if timeout and (time.time() - start) > timeout`. -/
def timeoutHit (t : Option Nat) (now : Nat) : Bool :=
  match t with
  | none => false
  | some T => decide (T ≠ 0) && decide (now > T)

/-- Message of the `TimeoutError` raised by `runCmd`. -/
def timeoutMsg (T : Nat) : String := "Command timed out after " ++ toString T ++ "s"

/-- The streaming loop of `runCmd`: reads each line in order, keeps the
first ten truncated lines as the snippet, and checks the timeout after
each line read.  At end-of-file the loop breaks before any timeout check
and the exit code is returned. -/
def runCmdLoop (exitCode : Int) (t : Option Nat) :
    List (Nat × String) → List String → Except String (Int × List String)
  | [], acc => .ok (exitCode, acc)
  | (tm, line) :: rest, acc =>
    let acc' := if acc.length < 10 then acc ++ [truncLine line] else acc
    if timeoutHit t tm then .error (timeoutMsg (t.getD 0))
    else runCmdLoop exitCode t rest acc'

/-- `runCmd(cmd, log_file_path, timeout)`: `.ok (rc, snippet)` when the
process is reaped normally, `.error msg` when the `TimeoutError` is
raised (after `proc.kill()`). -/
def runCmd (p : ChildProc) (t : Option Nat) : Except String (Int × List String) :=
  runCmdLoop p.exitCode t p.events []

/-! ### Weight Provisioner: `maybe_download_models` -/

/-- State read and written by `maybe_download_models`: the raw
`RFD_MODEL_S3_URI` environment value (empty when unset), whether the
`.download_complete` marker file exists, and whether the `aws s3 sync`
command would succeed. -/
structure WeightState where
  s3_uri_env : String
  markerExists : Bool
  syncSucceeds : Bool

/-- Result of one `maybe_download_models` call: the new state, how many
`aws s3 sync` subprocesses were spawned, and `some code` when the
function called `sys.exit(code)`. -/
structure ProvisionResult where
  state : WeightState
  syncCalls : Nat
  exitCode : Option Nat

/-- Model of `maybe_download_models`. -/
def maybe_download_models (s : WeightState) : ProvisionResult :=
  if pyStrip s.s3_uri_env = "" then ⟨s, 0, none⟩
  else if s.markerExists then ⟨s, 0, none⟩
  else if s.syncSucceeds then ⟨{ s with markerExists := true }, 1, none⟩
  else ⟨s, 1, some 1⟩

/-- Two consecutive `maybe_download_models` runs; the second happens only
if the first did not exit the process. -/
def ensureTwice (s : WeightState) : ProvisionResult :=
  let r1 := maybe_download_models s
  match r1.exitCode with
  | some c => ⟨r1.state, r1.syncCalls, some c⟩
  | none =>
    let r2 := maybe_download_models r1.state
    ⟨r2.state, r1.syncCalls + r2.syncCalls, r2.exitCode⟩

/-! ### Job discovery and the batch data model -/

/-- Configuration of a batch run, one field per environment variable read
by `main`; `none` models an unset variable.  `RFD_TIMEOUT_SECONDS` holds
the parsed integer value of the variable. -/
structure BatchEnv where
  RFD_INPUT_CHANNEL : Option String := none
  RFD_MODEL_DIR : Option String := none
  RFD_CONTIG_SPEC : Option String := none
  RFD_NUM_DESIGNS : Option String := none
  RFD_EXTRA_ARGS : Option String := none
  RFD_OUTPUT_PREFIX : Option String := none
  RFD_TIMEOUT_SECONDS : Option Nat := none
  RFD_MODEL_S3_URI : Option String := none

/-- The resolved input directory `/opt/ml/input/data/<channel>`. -/
def inputDirOf (env : BatchEnv) : String :=
  "/opt/ml/input/data/" ++ env.RFD_INPUT_CHANNEL.getD "pdbs"

/-- The effective timeout: `int(os.environ.get("RFD_TIMEOUT_SECONDS", "0")) or None`. -/
def effTimeout (env : BatchEnv) : Option Nat :=
  let t := env.RFD_TIMEOUT_SECONDS.getD 0
  if t = 0 then none else some t

/-- Oracle describing the filesystem and child-process behaviour during a
batch run, keyed by input path where per-job. -/
structure World where
  dirExists : String → Bool
  inputEntries : List String
  markerExists : Bool
  syncSucceeds : Bool
  proc : String → ChildProc
  outDirFiles : String → List String
  traceback : String → List String

/-- The `WeightState` that `maybe_download_models` sees during `main`. -/
def wsOf (env : BatchEnv) (w : World) : WeightState :=
  ⟨env.RFD_MODEL_S3_URI.getD "", w.markerExists, w.syncSucceeds⟩

/-- `glob.glob(os.path.join(input_dir, "*"))` keeps only entries whose
name does not start with a dot. -/
def glob_star (entries : List String) : List String :=
  entries.filter (fun n => !(pyStartsWith n "."))

/-- The extension filter `p.lower().endswith((".pdb", ".cif", ".ent", ".mmcif"))`. -/
def allowedExt (p : String) : Bool :=
  pyEndsWith (pyLower p) ".pdb" || pyEndsWith (pyLower p) ".cif" ||
  pyEndsWith (pyLower p) ".ent" || pyEndsWith (pyLower p) ".mmcif"

/-- The discovery pipeline of `main` (lines 68-70 of transform.py). -/
def discover (dir : String) (entries : List String) : List String :=
  sortStr (((glob_star entries).map (fun n => pyJoin dir n)).filter allowedExt)

/-- A `summary.json` record appended to `processed`. -/
structure ProcessedRecord where
  input_file : String
  produced_files : List String
  command : String
  duration_seconds : Nat
  log_snippet : List String
  num_designs_env : String
  contig_spec : Option String

/-- An `error.json` record appended to `failed`. -/
structure FailedRecord where
  input_file : String
  error : String
  traceback_tail : List String

/-- Outcome of one loop iteration of `main`. -/
inductive JobResult where
  | processed (s : ProcessedRecord)
  | failed (e : FailedRecord)

/-- The per-job artifact the loop writes for a result. -/
def artifactName : JobResult → String
  | .processed _ => "summary.json"
  | .failed _ => "error.json"

/-- Truthiness of an optional environment string, as `if contig_spec:`. -/
def envTruthy (o : Option String) : Bool :=
  match o with
  | none => false
  | some s => s ≠ ""

/-- The `model_dir` fallback of lines 85-90 of transform.py. -/
def effModelDir (env : BatchEnv) (w : World) : String :=
  let md := env.RFD_MODEL_DIR.getD "/models"
  if w.dirExists md then md
  else if w.dirExists "/app/RFdiffusion/models" then "/app/RFdiffusion/models"
  else md

/-- The joined shell command of lines 91-103 of transform.py. -/
def buildJobCmd (env : BatchEnv) (w : World) (outPref pdb_path : String) : String :=
  String.intercalate " "
    (["rfdiffusion",
      "inference.output_prefix=" ++ shquote outPref,
      "inference.model_directory_path=" ++ shquote (effModelDir env w),
      "inference.input_pdb=" ++ shquote pdb_path,
      "inference.num_designs=" ++ shquote (env.RFD_NUM_DESIGNS.getD "3")]
     ++ (match env.RFD_CONTIG_SPEC with
         | some s => if s ≠ "" then ["contigmap.contigs=" ++ shquote s] else []
         | none => [])
     ++ (match env.RFD_EXTRA_ARGS with
         | some s => if s ≠ "" then [s] else []
         | none => []))

/-- The bounded trace tail `traceback.format_exc().splitlines()[-10:]`. -/
def tbTail (w : World) (pdb_path : String) : List String :=
  (w.traceback pdb_path).drop ((w.traceback pdb_path).length - 10)

/-- The glob `os.path.join(out_dir, "*.pdb")` on a directory listing:
non-hidden names ending in `.pdb` (case sensitive). -/
def pdbGlobMatch (n : String) : Bool :=
  !(pyStartsWith n ".") && pyEndsWith n ".pdb"

/-- The `out_dir` of a job. -/
def outDirOf (pdb_path : String) : String := pyJoin "/opt/ml/output" (stemOf pdb_path)

/-- One iteration of the processing loop of `main` (lines 79-134): runs
the command and builds either the `ProcessedRecord` or the
`FailedRecord` for this job. -/
def processJob (env : BatchEnv) (w : World) (pdb_path : String) : JobResult :=
  let out_dir := outDirOf pdb_path
  match runCmd (w.proc pdb_path) (effTimeout env) with
  | .error msg => .failed ⟨basename pdb_path, msg, tbTail w pdb_path⟩
  | .ok (rc, snippet) =>
    if rc != 0 then
      .failed ⟨basename pdb_path, "Return code " ++ toString rc, tbTail w pdb_path⟩
    else
      .processed
        ⟨basename pdb_path,
         sortStr (((w.outDirFiles pdb_path).filter pdbGlobMatch).map
           (fun n => basename (pyJoin out_dir n))),
         buildJobCmd env w (pyJoin out_dir (env.RFD_OUTPUT_PREFIX.getD "design")) pdb_path,
         (w.proc pdb_path).exitTime,
         snippet,
         env.RFD_NUM_DESIGNS.getD "3",
         env.RFD_CONTIG_SPEC⟩

/-- Totals block of the manifest. -/
structure Totals where
  processed : Nat
  failed : Nat
  overall : Nat

/-- The written `manifest.json`; `totals` and `note` are `none` when the
corresponding JSON key is absent. -/
structure Manifest where
  processed : List ProcessedRecord
  failed : List FailedRecord
  totals : Option Totals
  note : Option String

/-- Extract the record of a processed job. -/
def getProc : JobResult → Option ProcessedRecord
  | .processed s => some s
  | .failed _ => none

/-- Extract the record of a failed job. -/
def getFail : JobResult → Option FailedRecord
  | .processed _ => none
  | .failed e => some e

/-- The Manifest Aggregator (lines 136-146): folds the per-job results,
in order, into the manifest with computed totals. -/
def aggregate (rs : List JobResult) : Manifest :=
  let ps := rs.filterMap getProc
  let fs := rs.filterMap getFail
  ⟨ps, fs, some ⟨ps.length, fs.length, ps.length + fs.length⟩, none⟩

/-- The degenerate manifest written when no input files are found
(line 73): empty lists, a note, and no totals. -/
def emptyInputManifest : Manifest := ⟨[], [], none, some "no input files"⟩

/-- How a batch run ends: `exitFail c` models `sys.exit(c)` before the
manifest exists, `finished m` models a normal return (process exit code
0) after writing manifest `m`. -/
inductive MainResult where
  | exitFail (code : Nat)
  | finished (m : Manifest)

/-- Observable side effects of a batch run: number of `aws s3 sync`
calls and the input paths the processing loop iterated over. -/
structure BatchTrace where
  syncCalls : Nat
  jobsRun : List String

/-- The batch entry point `main` of `src/sagemaker/transform.py`. -/
def mainBatch (env : BatchEnv) (w : World) : MainResult × BatchTrace :=
  let input_dir := inputDirOf env
  if !(w.dirExists input_dir) then (.exitFail 1, ⟨0, []⟩)
  else
    let pr := maybe_download_models (wsOf env w)
    match pr.exitCode with
    | some code => (.exitFail code, ⟨pr.syncCalls, []⟩)
    | none =>
      let pdb_files := discover input_dir w.inputEntries
      if pdb_files = [] then (.finished emptyInputManifest, ⟨pr.syncCalls, []⟩)
      else (.finished (aggregate (pdb_files.map (processJob env w))), ⟨pr.syncCalls, pdb_files⟩)

/-! ### Synchronous path: `src/src/inference.py` and `src/app.py`

JSON payloads are modelled by `Json`; Python `None` is `Json.null`.  The
single external invocation of `subprocess.run` is abstracted by an
`ExecOutcome` supplied by the `SyncWorld` oracle. -/

inductive Json where
  | null
  | bool (b : Bool)
  | num (n : Int)
  | str (s : String)
  | arr (items : List Json)
  | obj (fields : List (String × Json))

/-- Python truthiness of a JSON value. -/
def pyTruthy : Json → Bool
  | .null => false
  | .bool b => b
  | .num n => n != 0
  | .str s => s ≠ ""
  | .arr l => !l.isEmpty
  | .obj l => !l.isEmpty

/-- Lookup in an association list by string key, as `dict.get`. -/
def lookupStr (k : String) : List (String × Json) → Option Json
  | [] => none
  | (k', v) :: rest => if k' = k then some v else lookupStr k rest

/-- `body.get(key)`: `none` exactly when the key is absent. -/
def jGet (body : Json) (k : String) : Option Json :=
  match body with
  | .obj kvs => lookupStr k kvs
  | _ => none

/-- Whether the value is a Python dict. -/
def Json.isObj : Json → Bool
  | .obj _ => true
  | _ => false

/-- Whether the value is a Python list. -/
def Json.isArr : Json → Bool
  | .arr _ => true
  | _ => false

/-- Digits of a decimal literal. -/
def digitsVal : List Char → Option Nat
  | [] => none
  | l => if l.all Char.isDigit
         then some (l.foldl (fun acc c => acc * 10 + (c.toNat - 48)) 0)
         else none

/-- `int(s)` on a string: optional sign around decimal digits, ignoring
surrounding whitespace; `none` when Python would raise. -/
def parseIntStr (s : String) : Option Int :=
  match (pyStrip s).data with
  | '-' :: rest => (digitsVal rest).map (fun n => -(n : Int))
  | '+' :: rest => (digitsVal rest).map (fun n => (n : Int))
  | l => (digitsVal l).map (fun n => (n : Int))

/-- `int(v)` on a JSON value; `none` when Python would raise
`TypeError`/`ValueError`. -/
def pyInt : Json → Option Int
  | .num n => some n
  | .bool b => some (if b then 1 else 0)
  | .str s => parseIntStr s
  | _ => none

/-- Python `str()` of the JSON scalars that can appear as path fragments
or hydra overrides in the modelled paths. -/
def jsonPathStr : Json → String
  | .str s => s
  | .num n => toString n
  | .bool b => if b then "True" else "False"
  | .null => "None"
  | .arr _ => "[]"
  | .obj _ => "{}"

/-- Result of the external `subprocess.run` call as the world oracle
determines it. -/
inductive ExecOutcome where
  | exited (rc : Int) (stdout stderr : String)
  | timedOut
  | launchFailed (msg : String)

/-- The diagnostic dictionary attached to a `RuntimeError` by
`inference.py`; `command` is absent for the weight-download failure. -/
structure ExecDetails where
  command : Option (List String)
  stdout : String
  stderr : String
  returncode : Int

/-- One serialised artefact of the response payload. -/
structure OutputEntry where
  path : String
  filename : String
  inlined : Bool

/-- The success payload of `predict`. -/
structure OkResponse where
  status : String
  command : List String
  stdout : String
  stderr : String
  outputs : List OutputEntry

/-- How `predict` terminates, as seen by a caller: its return value or
the class of the exception it raises. -/
inductive PredictResult where
  | ok (resp : OkResponse)
  | valueError (msg : String)
  | typeError (msg : String)
  | convError (msg : String)
  | runtimeError (msg : String) (details : ExecDetails)
  | timeoutExpired (command : List String) (t : Int)
  | osError (msg : String)

/-- Side effects of a `predict` call that the claims observe: how many
subprocesses were spawned, which directories `os.makedirs` touched,
whether the main RFdiffusion subprocess ran, and the timeout it was
given. -/
structure SyncTrace where
  launches : Nat
  dirsMade : List String
  ranMain : Bool
  timeoutUsed : Option Int

/-- The context dictionary produced by `load_model`. -/
structure SyncCtx where
  repo_path : String
  script_path : String
  model_dir : String
  python_executable : String
  download_script : String

/-- Oracle for one synchronous request: environment variables, the state
of the weights directory, the behaviour of the download script and of
the main subprocess, and the files present next to the output prefix
after the run. -/
structure SyncWorld where
  uuidHex : String
  env_RF_OUTPUT_DIR : Option String
  env_RF_TIMEOUT_SECONDS : Option String
  env_RF_AUTO_DOWNLOAD_MODELS : Option String
  env_SM_OUTPUT_DATA_DIR : Option String
  modelDirPtFiles : List String
  downloadScriptExists : Bool
  downloadRC : Int
  downloadOut : String
  downloadErr : String
  exec : ExecOutcome
  outputListing : List String

/-- `_collect_outputs(output_prefix)`: glob `<dirname>/<basename>*` over
the listing of the output directory, returning sorted full paths. -/
def _collect_outputs (outPref : String) (listing : List String) : List String :=
  let dir := dirname outPref
  let base := basename outPref
  sortStr ((listing.filter
    (fun n => pyStartsWith n base && (pyStartsWith base "." || !(pyStartsWith n ".")))).map
    (fun n => pyJoin dir n))

/-- The `run_name` default: `body.get("run_name") or f"design_{uuid4().hex[:8]}"`. -/
def resolveRunName (v : Option Json) (uuidHex : String) : String :=
  let j := v.getD Json.null
  if pyTruthy j then jsonPathStr j
  else "design_" ++ String.mk (uuidHex.data.take 8)

/-- Lines 89-94 of inference.py: resolve the output prefix from
`output_prefix`, `output_dir`, `RF_OUTPUT_DIR` or the default. -/
def resolveOutPref (body : Json) (w : SyncWorld) (run_name : String) : String :=
  let op := (jGet body "output_prefix").getD .null
  if pyTruthy op then jsonPathStr op
  else
    let od := (jGet body "output_dir").getD .null
    let base := if pyTruthy od then jsonPathStr od
                else w.env_RF_OUTPUT_DIR.getD "/tmp/rfdiffusion"
    pyJoin base run_name

/-- The chained default of lines 107-111:
`body.get("timeout_seconds") or os.environ.get("RF_TIMEOUT_SECONDS") or 7200`. -/
def timeoutChain (bodyVal : Option Json) (envVal : Option String) : Json :=
  let b := bodyVal.getD Json.null
  if pyTruthy b then b
  else match envVal with
       | some s => if s ≠ "" then .str s else .num 7200
       | none => .num 7200

/-- The iterable of hydra overrides: `some items` when
`for override in hydra_overrides` iterates, `none` when Python would
raise `TypeError`.  The guard of line 82 only lets through lists and
falsy values. -/
def hydraItems : Json → Option (List Json)
  | .arr l => some l
  | .str s => some (s.data.map (fun c => Json.str (String.mk [c])))
  | .obj kvs => some (kvs.map (fun kv => Json.str kv.1))
  | .null => none
  | .bool _ => none
  | .num _ => none

/-- The argument vector of lines 113-132. -/
def buildSyncCmd (ctx : SyncCtx) (body : Json) (outPref : String) (nd : Int)
    (mdl : String) (items : List Json) : List String :=
  [ctx.python_executable, ctx.script_path]
  ++ (let cn := (jGet body "config_name").getD .null
      if pyTruthy cn then ["--config-name=" ++ jsonPathStr cn] else [])
  ++ ["inference.output_prefix=" ++ outPref,
      "inference.num_designs=" ++ toString nd,
      "inference.model_directory_path=" ++ mdl]
  ++ (let cg := (jGet body "contigs").getD .null
      if pyTruthy cg then ["contigmap.contigs=" ++ jsonPathStr cg] else [])
  ++ (let ip := (jGet body "input_pdb").getD .null
      if pyTruthy ip then ["inference.input_pdb=" ++ jsonPathStr ip] else [])
  ++ items.map jsonPathStr

/-- `_maybe_download_weights`: number of subprocesses spawned and the
`RuntimeError` raised on a non-zero download exit, if any. -/
def maybeDownloadWeights (body : Json) (ctx : SyncCtx) (w : SyncWorld) :
    Nat × Option PredictResult :=
  let auto := pyTruthy ((jGet body "auto_download_weights").getD .null)
    || decide ((w.env_RF_AUTO_DOWNLOAD_MODELS.getD "0") ∈ (["1", "true", "True"] : List String))
  if !auto then (0, none)
  else if !w.modelDirPtFiles.isEmpty then (0, none)
  else if ctx.download_script = "" || !w.downloadScriptExists then (0, none)
  else if w.downloadRC != 0 then
    (1, some (.runtimeError "Failed to download RFdiffusion weights"
      ⟨none, w.downloadOut, w.downloadErr, w.downloadRC⟩))
  else (1, none)

/-- The body of `predict` after the dictionary check, on the fields of
the dict. -/
def predictObj (kvs : List (String × Json)) (ctx : SyncCtx) (w : SyncWorld) :
    PredictResult × SyncTrace :=
  let body := Json.obj kvs
  let ho := (jGet body "hydra_overrides").getD (.arr [])
  if pyTruthy ho && !ho.isArr then
    (.typeError "'hydra_overrides' must be provided as a list of strings", ⟨0, [], false, none⟩)
  else
    let inline_outputs := pyTruthy ((jGet body "inline_outputs").getD (.bool false))
    let run_name := resolveRunName (jGet body "run_name") w.uuidHex
    let outPref := resolveOutPref body w run_name
    let mdv := (jGet body "model_directory").getD .null
    let model_directory := if pyTruthy mdv then jsonPathStr mdv else ctx.model_dir
    let dirs := [dirname outPref, model_directory]
    let dl := (maybeDownloadWeights body ctx w).1
    match (maybeDownloadWeights body ctx w).2 with
    | some err => (err, ⟨dl, dirs, false, none⟩)
    | none =>
      match pyInt ((jGet body "num_designs").getD (.num 1)) with
      | none => (.convError "invalid num_designs", ⟨dl, dirs, false, none⟩)
      | some nd =>
        match pyInt (timeoutChain (jGet body "timeout_seconds") w.env_RF_TIMEOUT_SECONDS) with
        | none => (.convError "invalid timeout_seconds", ⟨dl, dirs, false, none⟩)
        | some tmo =>
          match hydraItems ho with
          | none => (.typeError "'int' object is not iterable", ⟨dl, dirs, false, none⟩)
          | some items =>
            let cmd := buildSyncCmd ctx body outPref nd model_directory items
            match w.exec with
            | .exited rc out err =>
              if rc != 0 then
                (.runtimeError "RFdiffusion execution failed" ⟨some cmd, out, err, rc⟩,
                 ⟨dl + 1, dirs, true, some tmo⟩)
              else
                let produced := _collect_outputs outPref w.outputListing
                (.ok ⟨"ok", cmd, out, err,
                   produced.map (fun p => ⟨p, basename p, inline_outputs⟩)⟩,
                 ⟨dl + 1, dirs, true, some tmo⟩)
            | .timedOut => (.timeoutExpired cmd tmo, ⟨dl + 1, dirs, true, some tmo⟩)
            | .launchFailed m => (.osError m, ⟨dl + 1, dirs, true, some tmo⟩)

/-- `predict(body, context)` of `src/src/inference.py`. -/
def predict (body : Json) (ctx : SyncCtx) (w : SyncWorld) : PredictResult × SyncTrace :=
  match body with
  | .null => (.valueError "Request payload must be a JSON object.", ⟨0, [], false, none⟩)
  | .obj kvs => predictObj kvs ctx w
  | _ => (.typeError "Request payload must be a JSON dictionary.", ⟨0, [], false, none⟩)

/-! ### The HTTP adapter `invocations` of `src/app.py` -/

/-- The request body as `request.get_json(force=True, silent=False)`
produces it: either a parse failure or a JSON value. -/
inductive ReqBody where
  | invalid (msg : String)
  | parsed (j : Json)

/-- The `details` field of an error response: the structured diagnostic
dictionary of a `RuntimeError`, or a plain string. -/
inductive Details where
  | structured (d : ExecDetails)
  | text (s : String)

/-- An HTTP response body of the adapter. -/
inductive RespBody where
  | errOnly (error : String)
  | errDetails (error : String) (details : Details)
  | okPayload (r : OkResponse)

/-- An HTTP response: status code and JSON body. -/
structure HttpResp where
  status : Nat
  body : RespBody

/-- `str()` of a `subprocess.TimeoutExpired` exception. -/
def timeoutText (cmd : List String) (t : Int) : String :=
  "Command '" ++ String.intercalate " " cmd ++ "' timed out after " ++ toString t ++ " seconds"

/-- The `/invocations` handler of `src/app.py`. -/
def invocations (req : ReqBody) (ctx : SyncCtx) (w : SyncWorld) : HttpResp :=
  match req with
  | .invalid m => ⟨400, .errDetails "Invalid JSON payload" (.text m)⟩
  | .parsed j =>
    match (predict j ctx w).1 with
    | .valueError m => ⟨400, .errOnly m⟩
    | .typeError m => ⟨400, .errOnly m⟩
    | .convError m => ⟨400, .errOnly m⟩
    | .runtimeError _ d => ⟨500, .errDetails "RFdiffusion execution failed" (.structured d)⟩
    | .timeoutExpired cmd t => ⟨500, .errDetails "Unhandled server error" (.text (timeoutText cmd t))⟩
    | .osError m => ⟨500, .errDetails "Unhandled server error" (.text m)⟩
    | .ok r => ⟨200, .okPayload r⟩

/-! ### Order properties of the string comparison used by `sorted` -/

theorem listLe_total : ∀ x y : List Char, listLe x y = true ∨ listLe y x = true := by
  intro x
  induction x with
  | nil => intro y; left; rfl
  | cons a as ih =>
    intro y
    cases y with
    | nil => right; rfl
    | cons b bs =>
      rcases lt_trichotomy a b with h | h | h
      · left; simp [listLe, h]
      · subst h
        rcases ih bs with h2 | h2
        · left; simp [listLe, h2]
        · right; simp [listLe, h2]
      · right; simp [listLe, h]

theorem listLe_trans :
    ∀ x y z : List Char, listLe x y = true → listLe y z = true → listLe x z = true := by
  intro x
  induction x with
  | nil => intro y z h1 h2; rfl
  | cons a as ih =>
    intro y z h1 h2
    cases y with
    | nil => exact absurd h1 (by simp [listLe])
    | cons b bs =>
      cases z with
      | nil => exact absurd h2 (by simp [listLe])
      | cons c cs =>
        simp only [listLe] at h1 h2 ⊢
        rcases lt_trichotomy a b with hab | hab | hab
        · rcases lt_trichotomy b c with hbc | hbc | hbc
          · simp [lt_trans hab hbc]
          · subst hbc; simp [hab]
          · rw [if_neg (asymm hbc), if_pos hbc] at h2; exact absurd h2 (by simp)
        · subst hab
          rw [if_neg (lt_irrefl a), if_neg (lt_irrefl a)] at h1
          rcases lt_trichotomy a c with hac | hac | hac
          · simp [hac]
          · subst hac
            rw [if_neg (lt_irrefl a), if_neg (lt_irrefl a)] at h2
            simp [lt_irrefl, ih bs cs h1 h2]
          · rw [if_neg (asymm hac), if_pos hac] at h2; exact absurd h2 (by simp)
        · rw [if_neg (asymm hab), if_pos hab] at h1; exact absurd h1 (by simp)

instance : IsTotal String strLe := ⟨fun a b => listLe_total a.data b.data⟩

instance : IsTrans String strLe := ⟨fun a b c => listLe_trans a.data b.data c.data⟩

theorem mem_sortStr {x : String} {l : List String} : x ∈ sortStr l ↔ x ∈ l :=
  List.mem_insertionSort strLe

theorem sortStr_perm (l : List String) : (sortStr l).Perm l :=
  List.perm_insertionSort strLe l

theorem sortStr_sorted (l : List String) : List.Sorted strLe (sortStr l) :=
  List.sorted_insertionSort strLe l

/-! ### Auxiliary facts about the string utilities -/

theorem strAppend2_ne (a b : String) (h : a.data ≠ []) : a ++ b ≠ "" := by
  intro he
  apply h
  have h2 : a.data ++ b.data = ([] : List Char) := by
    have h3 := congrArg String.data he
    rwa [String.data_append] at h3
  exact (List.append_eq_nil.mp h2).1

theorem strAppend3_ne (a b c : String) (h : a.data ≠ []) : a ++ b ++ c ≠ "" := by
  apply strAppend2_ne
  intro he
  apply h
  have h2 : a.data ++ b.data = ([] : List Char) := by
    rwa [String.data_append] at he
  exact (List.append_eq_nil.mp h2).1

theorem timeoutMsg_ne (T : Nat) : timeoutMsg T ≠ "" :=
  strAppend3_ne "Command timed out after " (toString T) "s" (by decide)

theorem takeWhile_all_append {p : Char → Bool} (l1 : List Char) (x : Char) (l2 : List Char)
    (h1 : ∀ c ∈ l1, p c = true) (h2 : p x = false) :
    (l1 ++ x :: l2).takeWhile p = l1 := by
  induction l1 with
  | nil => simp [List.takeWhile_cons, h2]
  | cons c cs ih =>
    have hc : p c = true := h1 c (List.mem_cons_self c cs)
    have ih2 := ih (fun d hd => h1 d (List.mem_cons_of_mem c hd))
    simp [List.takeWhile_cons, hc, ih2]

theorem takeWhile_all {p : Char → Bool} (l : List Char) (h : ∀ c ∈ l, p c = true) :
    l.takeWhile p = l := by
  induction l with
  | nil => rfl
  | cons c cs ih =>
    have ih2 := ih (fun d hd => h d (List.mem_cons_of_mem c hd))
    simp [List.takeWhile_cons, h c (List.mem_cons_self c cs), ih2]

theorem basename_concat (d n : String) (h : ∀ c ∈ n.data, c ≠ '/') :
    basename (d ++ "/" ++ n) = n := by
  unfold basename
  have hd : (d ++ "/" ++ n).data = (d.data ++ ['/']) ++ n.data := by
    rw [String.data_append, String.data_append]
  rw [hd, List.reverse_append, List.reverse_append]
  have hsh : (['/'] : List Char).reverse ++ d.data.reverse = '/' :: d.data.reverse := rfl
  rw [hsh, takeWhile_all_append]
  · rw [List.reverse_reverse]
  · intro c hc
    exact decide_eq_true (h c (List.mem_reverse.mp hc))
  · rfl

theorem basename_noslash (n : String) (h : ∀ c ∈ n.data, c ≠ '/') : basename n = n := by
  unfold basename
  rw [takeWhile_all]
  · rw [List.reverse_reverse]
  · intro c hc
    exact decide_eq_true (h c (List.mem_reverse.mp hc))

theorem basename_chars (s : String) : ∀ c ∈ (basename s).data, c ≠ '/' := by
  intro c hc
  unfold basename at hc
  have hc2 := List.mem_reverse.mp hc
  have := List.mem_takeWhile_imp hc2
  exact of_decide_eq_true this

theorem stemChars_subset (nm : List Char) : ∀ c ∈ stemChars nm, c ∈ nm := by
  intro c hc
  unfold stemChars at hc
  split at hc
  · exact hc
  · split at hc
    · exact hc
    · split at hc
      · exact hc
      · exact List.take_subset _ _ hc

theorem stemOf_chars (p : String) : ∀ c ∈ (stemOf p).data, c ≠ '/' := by
  intro c hc
  exact basename_chars p c (stemChars_subset _ c hc)

theorem noslash_not_startsWith (s : String) (h : ∀ c ∈ s.data, c ≠ '/') :
    pyStartsWith s "/" = false := by
  unfold pyStartsWith
  cases hs : s.data with
  | nil => rfl
  | cons c cs =>
    have hc : c ≠ '/' := h c (by rw [hs]; exact List.mem_cons_self c cs)
    simp [List.take, hc.symm]

theorem pyJoin_eq (d n : String) (hd : d ≠ "") (hds : pyEndsWith d "/" = false)
    (hn : pyStartsWith n "/" = false) : pyJoin d n = d ++ "/" ++ n := by
  unfold pyJoin
  rw [hn, hds]
  simp [hd]

theorem outDirOf_eq (p : String) : outDirOf p = "/opt/ml/output" ++ "/" ++ stemOf p := by
  unfold outDirOf
  exact pyJoin_eq "/opt/ml/output" (stemOf p) (by decide) (by decide)
    (noslash_not_startsWith _ (stemOf_chars p))

theorem endsWith_slash_concat (d n : String) (hn : n.data ≠ []) (h : ∀ c ∈ n.data, c ≠ '/') :
    pyEndsWith (d ++ "/" ++ n) "/" = false := by
  unfold pyEndsWith
  rcases List.eq_nil_or_concat n.data with hnil | ⟨l, a, hla⟩
  · exact absurd hnil hn
  have hdata : (d ++ "/" ++ n).data = (d.data ++ ['/'] ++ l) ++ [a] := by
    rw [String.data_append, String.data_append, hla]
    simp [List.append_assoc]
  have ha : a ≠ '/' := h a (by rw [hla]; simp)
  rw [hdata]
  have hlen : ((d.data ++ ['/'] ++ l) ++ [a]).length - ("/" : String).data.length
      = (d.data ++ ['/'] ++ l).length := by
    simp
  rw [hlen, List.drop_left]
  simp [ha.symm]

/-! ### Structural facts about the aggregator and the processing loop -/

/-- The input filename recorded in a job result. -/
def resultInput : JobResult → String
  | .processed s => s.input_file
  | .failed e => e.input_file

theorem filterMap_count (rs : List JobResult) :
    (rs.filterMap getProc).length + (rs.filterMap getFail).length = rs.length := by
  induction rs with
  | nil => rfl
  | cons r rest ih =>
    cases r with
    | processed s => simp [List.filterMap_cons, getProc, getFail]; omega
    | failed e => simp [List.filterMap_cons, getProc, getFail]; omega

theorem filterMap_partition_perm (rs : List JobResult) :
    ((rs.filterMap getProc).map ProcessedRecord.input_file
      ++ (rs.filterMap getFail).map FailedRecord.input_file).Perm (rs.map resultInput) := by
  induction rs with
  | nil => simp
  | cons r rest ih =>
    cases r with
    | processed s =>
      simp only [List.filterMap_cons, getProc, getFail, List.map_cons, List.cons_append,
        List.map]
      exact ih.cons s.input_file
    | failed e =>
      simp only [List.filterMap_cons, getProc, getFail, List.map_cons, List.map]
      exact List.perm_middle.trans (ih.cons e.input_file)

theorem aggregate_shape (rs : List JobResult) :
    aggregate rs = ⟨rs.filterMap getProc, rs.filterMap getFail,
      some ⟨(rs.filterMap getProc).length, (rs.filterMap getFail).length,
        (rs.filterMap getProc).length + (rs.filterMap getFail).length⟩, none⟩ := rfl

theorem processJob_input (env : BatchEnv) (w : World) (p : String) :
    resultInput (processJob env w p) = basename p := by
  unfold processJob
  cases hrc : runCmd (w.proc p) (effTimeout env) with
  | error msg => simp [resultInput]
  | ok pr =>
    obtain ⟨rc, snip⟩ := pr
    by_cases h : rc != 0
    · simp [h, resultInput]
    · simp [h, resultInput]

theorem mainBatch_loop (env : BatchEnv) (w : World)
    (h1 : w.dirExists (inputDirOf env) = true)
    (h2 : (maybe_download_models (wsOf env w)).exitCode = none)
    (h3 : discover (inputDirOf env) w.inputEntries ≠ []) :
    mainBatch env w =
      (.finished (aggregate ((discover (inputDirOf env) w.inputEntries).map (processJob env w))),
       ⟨(maybe_download_models (wsOf env w)).syncCalls,
        discover (inputDirOf env) w.inputEntries⟩) := by
  unfold mainBatch
  simp only [h1, Bool.not_true, Bool.false_eq_true, if_false]
  split
  · rename_i code heq
    rw [h2] at heq
    cases heq
  · rw [if_neg h3]

theorem mainBatch_empty (env : BatchEnv) (w : World)
    (h1 : w.dirExists (inputDirOf env) = true)
    (h2 : (maybe_download_models (wsOf env w)).exitCode = none)
    (h3 : discover (inputDirOf env) w.inputEntries = []) :
    mainBatch env w =
      (.finished emptyInputManifest, ⟨(maybe_download_models (wsOf env w)).syncCalls, []⟩) := by
  unfold mainBatch
  simp only [h1, Bool.not_true, Bool.false_eq_true, if_false]
  split
  · rename_i code heq
    rw [h2] at heq
    cases heq
  · rw [if_pos h3]

/-! ### Behaviour of the command-runner loop -/

theorem runCmdLoop_overdue (ec : Int) (T : Nat) (hT : T ≠ 0) :
    ∀ (evs : List (Nat × String)) (acc : List String),
      (∃ e ∈ evs, T < e.1) →
      runCmdLoop ec (some T) evs acc = .error (timeoutMsg T) := by
  intro evs
  induction evs with
  | nil => intro acc h; exact absurd h (by simp)
  | cons e rest ih =>
    intro acc h
    obtain ⟨tm, line⟩ := e
    obtain ⟨e', he', hlt⟩ := h
    by_cases hover : T < tm
    · simp [runCmdLoop, timeoutHit, hT, hover]
    · rcases List.mem_cons.mp he' with rfl | hrest
      · exact absurd hlt hover
      · have : timeoutHit (some T) tm = false := by
          simp [timeoutHit, hover]
        simp only [runCmdLoop, this, Bool.false_eq_true, if_false]
        exact ih _ ⟨e', hrest, hlt⟩

theorem runCmdLoop_onTime (ec : Int) (T : Nat) :
    ∀ (evs : List (Nat × String)) (acc : List String),
      (∀ e ∈ evs, e.1 ≤ T) →
      runCmdLoop ec (some T) evs acc = runCmdLoop ec none evs acc := by
  intro evs
  induction evs with
  | nil => intro acc _; rfl
  | cons e rest ih =>
    intro acc h
    obtain ⟨tm, line⟩ := e
    have htm : tm ≤ T := h (tm, line) (List.mem_cons_self _ _)
    have hhit : timeoutHit (some T) tm = false := by
      simp [timeoutHit]
      omega
    have hnone : timeoutHit none tm = false := rfl
    simp only [runCmdLoop, hhit, hnone, Bool.false_eq_true, if_false]
    exact ih _ (fun e' he' => h e' (List.mem_cons_of_mem _ he'))

theorem runCmdLoop_noTimeout (ec : Int) :
    ∀ (evs : List (Nat × String)) (acc : List String),
      ∃ snip, runCmdLoop ec none evs acc = .ok (ec, snip) := by
  intro evs
  induction evs with
  | nil => intro acc; exact ⟨acc, rfl⟩
  | cons e rest ih =>
    intro acc
    obtain ⟨tm, line⟩ := e
    simp only [runCmdLoop, timeoutHit, Bool.false_eq_true, if_false]
    exact ih _

theorem runCmdLoop_error_shape (ec : Int) (t : Option Nat) :
    ∀ (evs : List (Nat × String)) (acc : List String) (m : String),
      runCmdLoop ec t evs acc = .error m → m = timeoutMsg (t.getD 0) := by
  intro evs
  induction evs with
  | nil => intro acc m h; cases h
  | cons e rest ih =>
    intro acc m h
    obtain ⟨tm, line⟩ := e
    simp only [runCmdLoop] at h
    split at h
    · cases h; rfl
    · exact ih _ m h

theorem runCmd_error_ne (p : ChildProc) (t : Option Nat) (m : String)
    (h : runCmd p t = .error m) : m ≠ "" := by
  rw [runCmdLoop_error_shape p.exitCode t p.events [] m h]
  exact timeoutMsg_ne _

/-! ### The validated tail of `predict` -/

/-- All request validations of `predict` succeed and the optional weight
download does not fail, so control reaches the `subprocess.run` call. -/
def predictReachesRunB (body : Json) (ctx : SyncCtx) (w : SyncWorld) : Bool :=
  body.isObj &&
  !(pyTruthy ((jGet body "hydra_overrides").getD (.arr [])) &&
    !((jGet body "hydra_overrides").getD (.arr [])).isArr) &&
  ((maybeDownloadWeights body ctx w).2).isNone &&
  (pyInt ((jGet body "num_designs").getD (.num 1))).isSome &&
  (pyInt (timeoutChain (jGet body "timeout_seconds") w.env_RF_TIMEOUT_SECONDS)).isSome &&
  (hydraItems ((jGet body "hydra_overrides").getD (.arr []))).isSome

/-- The tail of `predict` once validation, download and the two `int()`
conversions are behind: builds the command and dispatches on the outcome
of `subprocess.run`. -/
def predictRun (kvs : List (String × Json)) (ctx : SyncCtx) (w : SyncWorld)
    (nd tmo : Int) (items : List Json) : PredictResult × SyncTrace :=
  let body := Json.obj kvs
  let inline_outputs := pyTruthy ((jGet body "inline_outputs").getD (.bool false))
  let run_name := resolveRunName (jGet body "run_name") w.uuidHex
  let outPref := resolveOutPref body w run_name
  let mdv := (jGet body "model_directory").getD .null
  let model_directory := if pyTruthy mdv then jsonPathStr mdv else ctx.model_dir
  let dirs := [dirname outPref, model_directory]
  let dl := (maybeDownloadWeights body ctx w).1
  let cmd := buildSyncCmd ctx body outPref nd model_directory items
  match w.exec with
  | .exited rc out err =>
    if rc != 0 then
      (.runtimeError "RFdiffusion execution failed" ⟨some cmd, out, err, rc⟩,
       ⟨dl + 1, dirs, true, some tmo⟩)
    else
      let produced := _collect_outputs outPref w.outputListing
      (.ok ⟨"ok", cmd, out, err,
         produced.map (fun p => ⟨p, basename p, inline_outputs⟩)⟩,
       ⟨dl + 1, dirs, true, some tmo⟩)
  | .timedOut => (.timeoutExpired cmd tmo, ⟨dl + 1, dirs, true, some tmo⟩)
  | .launchFailed m => (.osError m, ⟨dl + 1, dirs, true, some tmo⟩)

theorem predict_run_shape (kvs : List (String × Json)) (ctx : SyncCtx) (w : SyncWorld)
    (h : predictReachesRunB (Json.obj kvs) ctx w = true) :
    ∃ (nd tmo : Int) (items : List Json),
      pyInt ((jGet (Json.obj kvs) "num_designs").getD (.num 1)) = some nd ∧
      pyInt (timeoutChain (jGet (Json.obj kvs) "timeout_seconds")
        w.env_RF_TIMEOUT_SECONDS) = some tmo ∧
      hydraItems ((jGet (Json.obj kvs) "hydra_overrides").getD (.arr [])) = some items ∧
      predict (Json.obj kvs) ctx w = predictRun kvs ctx w nd tmo items := by
  simp only [predictReachesRunB, Bool.and_eq_true, Bool.not_eq_true',
    Option.isNone_iff_eq_none, Option.isSome_iff_exists] at h
  obtain ⟨⟨⟨⟨⟨-, hguard⟩, hdl⟩, nd, hnd⟩, tmo, htmo⟩, items, hitems⟩ := h
  refine ⟨nd, tmo, items, hnd, htmo, hitems, ?_⟩
  simp only [predict, predictObj, predictRun, hguard, hdl, hnd, htmo, hitems,
    Bool.false_eq_true, if_false]

theorem predictRun_trace (kvs : List (String × Json)) (ctx : SyncCtx) (w : SyncWorld)
    (nd tmo : Int) (items : List Json) :
    (predictRun kvs ctx w nd tmo items).2.timeoutUsed = some tmo ∧
    (predictRun kvs ctx w nd tmo items).2.ranMain = true := by
  simp only [predictRun]
  repeat' split
  all_goals exact ⟨rfl, rfl⟩

theorem predictObj_trace (kvs : List (String × Json)) (ctx : SyncCtx) (w : SyncWorld) :
    (predictObj kvs ctx w).2.ranMain = true →
    ((predictObj kvs ctx w).2.timeoutUsed).isSome = true := by
  simp only [predictObj]
  repeat' split
  all_goals first
    | exact fun _ => rfl
    | exact fun h => Bool.noConfusion h

theorem predict_finite_timeout (body : Json) (ctx : SyncCtx) (w : SyncWorld) :
    (predict body ctx w).2.ranMain = true →
    ((predict body ctx w).2.timeoutUsed).isSome = true := by
  cases body with
  | obj kvs => exact predictObj_trace kvs ctx w
  | null => exact fun h => Bool.noConfusion h
  | bool b => exact fun h => Bool.noConfusion h
  | num n => exact fun h => Bool.noConfusion h
  | str s => exact fun h => Bool.noConfusion h
  | arr l => exact fun h => Bool.noConfusion h

/-! ### Claim C1 -/

/-- Batch environment with every variable unset. -/
def envC1 : BatchEnv := {}

/-- World for C1: the input directory exists but is empty, no remote
weight source is involved. -/
def wC1 : World :=
  ⟨fun _ => true, [], false, true, fun _ => ⟨[], 0, 0⟩, fun _ => [], fun _ => []⟩

/-- C1 (counterexample): with zero discovered input files the entry point
writes the degenerate manifest, whose `totals` key is absent, so no
`totals.overall = 0` can be read from it; the claim's totals clause is
false on this run. -/
theorem c1_counterexample :
    discover (inputDirOf envC1) wC1.inputEntries = [] ∧
    (mainBatch envC1 wC1).1 = .finished ⟨[], [], none, some "no input files"⟩ ∧
    ∀ t : Totals, (⟨[], [], none, some "no input files"⟩ : Manifest).totals ≠ some t := by
  refine ⟨rfl, rfl, ?_⟩
  intro t h
  cases h

/-- C1 (amended): for every batch run in which discovery finds zero
matching input files (input directory present, provisioning not
exiting), the entry point writes a manifest with empty `processed` and
`failed` lists and the note "no input files" but NO `totals` key, and
the process exits 0 (`MainResult.finished` models a normal return). -/
theorem c1_amended (env : BatchEnv) (w : World)
    (h1 : w.dirExists (inputDirOf env) = true)
    (h2 : (maybe_download_models (wsOf env w)).exitCode = none)
    (h3 : discover (inputDirOf env) w.inputEntries = []) :
    (mainBatch env w).1 = .finished ⟨[], [], none, some "no input files"⟩ := by
  rw [mainBatch_empty env w h1 h2 h3]
  rfl

/-- C1 (witness): the amended claim at the concrete empty-input run. -/
theorem c1_amended_witness :
    wC1.dirExists (inputDirOf envC1) = true ∧
    (maybe_download_models (wsOf envC1 wC1)).exitCode = none ∧
    discover (inputDirOf envC1) wC1.inputEntries = [] ∧
    (mainBatch envC1 wC1).1 = .finished ⟨[], [], none, some "no input files"⟩ :=
  ⟨rfl, rfl, rfl, c1_amended envC1 wC1 rfl rfl rfl⟩

/-! ### Claim C2 -/

/-- C2: in every batch run that reaches the processing loop, each
discovered job contributes exactly one record to exactly one of the two
manifest lists: the recorded input files of `processed` and `failed`
together are a permutation of the discovered jobs' basenames, and
`totals.processed`, `totals.failed` and `totals.overall` are the lengths
of the lists and their sum, which equals the number of discovered
jobs. -/
theorem c2_totals (env : BatchEnv) (w : World)
    (h1 : w.dirExists (inputDirOf env) = true)
    (h2 : (maybe_download_models (wsOf env w)).exitCode = none)
    (h3 : discover (inputDirOf env) w.inputEntries ≠ []) :
    ∃ m : Manifest, (mainBatch env w).1 = .finished m ∧
      m.totals = some ⟨m.processed.length, m.failed.length,
        m.processed.length + m.failed.length⟩ ∧
      m.processed.length + m.failed.length
        = (discover (inputDirOf env) w.inputEntries).length ∧
      (m.processed.map ProcessedRecord.input_file
        ++ m.failed.map FailedRecord.input_file).Perm
        ((discover (inputDirOf env) w.inputEntries).map basename) := by
  rw [mainBatch_loop env w h1 h2 h3]
  refine ⟨_, rfl, rfl, ?_, ?_⟩
  · have h := filterMap_count
      ((discover (inputDirOf env) w.inputEntries).map (processJob env w))
    rw [List.length_map] at h
    exact h
  · have hmap :
        (((discover (inputDirOf env) w.inputEntries).map (processJob env w)).map resultInput)
          = (discover (inputDirOf env) w.inputEntries).map basename := by
      rw [List.map_map]
      exact List.map_congr_left (fun p _ => processJob_input env w p)
    exact hmap ▸ filterMap_partition_perm _

/-- Environment and world for the C2 witness: two inputs, one job
succeeding and one failing. -/
def wC2 : World :=
  ⟨fun _ => true, ["a.pdb", "b.pdb"], false, true,
   fun p => if p = "/opt/ml/input/data/pdbs/a.pdb" then ⟨[], 1, 0⟩ else ⟨[], 1, 2⟩,
   fun _ => ["design_0.pdb"], fun _ => ["Traceback (most recent call last):"]⟩

/-- C2 (witness): the totals invariant at a concrete two-job run. -/
theorem c2_totals_witness :
    discover (inputDirOf envC1) wC2.inputEntries ≠ [] ∧
    ∃ m : Manifest, (mainBatch envC1 wC2).1 = .finished m ∧
      m.totals = some ⟨m.processed.length, m.failed.length,
        m.processed.length + m.failed.length⟩ ∧
      m.processed.length + m.failed.length
        = (discover (inputDirOf envC1) wC2.inputEntries).length ∧
      (m.processed.map ProcessedRecord.input_file
        ++ m.failed.map FailedRecord.input_file).Perm
        ((discover (inputDirOf envC1) wC2.inputEntries).map basename) :=
  ⟨by decide, c2_totals envC1 wC2 rfl rfl (by decide)⟩

/-! ### Claim C3 -/

/-- Collection rule written in the claim: the files of the job's output
directory whose names match `<output prefix>*`, sorted. -/
def producedByClaim (prefBase : String) (listing : List String) : List String :=
  sortStr (listing.filter (fun n => pyStartsWith n prefBase))

/-- Environment and world for C3: one input job whose command exits 0;
its output directory holds only `other.pdb`, which does not start with
the configured output prefix `design`. -/
def wC3 : World :=
  ⟨fun _ => true, ["a.pdb"], false, true, fun _ => ⟨[], 1, 0⟩,
   fun _ => ["other.pdb"], fun _ => []⟩

/-- C3 (counterexample): the run records `produced_files = ["other.pdb"]`
(the `*.pdb` glob of transform.py line 110), while the claim's
prefix-based collection of the same directory is empty; the claim fails
at this run. -/
theorem c3_counterexample :
    (∃ s : ProcessedRecord,
      (mainBatch envC1 wC3).1 = .finished ⟨[s], [], some ⟨1, 0, 1⟩, none⟩ ∧
      s.produced_files = ["other.pdb"]) ∧
    producedByClaim "design" ["other.pdb"] = [] := by
  exact ⟨⟨_, rfl, rfl⟩, by decide⟩

/-- C3 (amended): for every batch job whose external command exits 0, the
`ProcessedRecord` has `produced_files` equal to the sorted names of the
non-hidden files of the job's output directory that end in `.pdb`
(case-sensitively) — regardless of the configured output prefix. -/
theorem c3_amended (env : BatchEnv) (w : World) (p : String)
    (hrc : ∃ snip, runCmd (w.proc p) (effTimeout env) = .ok (0, snip))
    (hstem : (stemOf p).data ≠ [])
    (hns : ∀ n ∈ w.outDirFiles p, ∀ c ∈ n.data, c ≠ '/') :
    ∃ s : ProcessedRecord, processJob env w p = .processed s ∧
      s.produced_files = sortStr ((w.outDirFiles p).filter pdbGlobMatch) := by
  obtain ⟨snip, hrun⟩ := hrc
  have hd1 : outDirOf p ≠ "" := by
    rw [outDirOf_eq]
    exact strAppend3_ne _ _ _ (by decide)
  have hd2 : pyEndsWith (outDirOf p) "/" = false := by
    rw [outDirOf_eq]
    exact endsWith_slash_concat _ _ hstem (stemOf_chars p)
  unfold processJob
  rw [hrun]
  simp only [show ((0 : Int) != 0) = false from rfl, Bool.false_eq_true, if_false]
  refine ⟨_, rfl, ?_⟩
  show sortStr (((w.outDirFiles p).filter pdbGlobMatch).map
      (fun n => basename (pyJoin (outDirOf p) n)))
    = sortStr ((w.outDirFiles p).filter pdbGlobMatch)
  have hmap : ((w.outDirFiles p).filter pdbGlobMatch).map
      (fun n => basename (pyJoin (outDirOf p) n))
      = (w.outDirFiles p).filter pdbGlobMatch := by
    have hje : ∀ n ∈ (w.outDirFiles p).filter pdbGlobMatch,
        basename (pyJoin (outDirOf p) n) = n := by
      intro n hn
      have hn' : n ∈ w.outDirFiles p := List.mem_of_mem_filter hn
      have hnoslash := hns n hn'
      rw [pyJoin_eq _ _ hd1 hd2 (noslash_not_startsWith n hnoslash)]
      exact basename_concat _ _ hnoslash
    exact (List.map_congr_left hje).trans (List.map_id _)
  rw [hmap]

/-- C3 (witness): the amended collection rule at the concrete run of
`wC3`. -/
theorem c3_amended_witness :
    runCmd (wC3.proc "/opt/ml/input/data/pdbs/a.pdb") (effTimeout envC1) = .ok (0, []) ∧
    (stemOf "/opt/ml/input/data/pdbs/a.pdb").data ≠ [] ∧
    ∃ s : ProcessedRecord,
      processJob envC1 wC3 "/opt/ml/input/data/pdbs/a.pdb" = .processed s ∧
      s.produced_files
        = sortStr ((wC3.outDirFiles "/opt/ml/input/data/pdbs/a.pdb").filter pdbGlobMatch) :=
  ⟨rfl, by decide,
   c3_amended envC1 wC3 "/opt/ml/input/data/pdbs/a.pdb" ⟨[], rfl⟩ (by decide) (by decide)⟩

/-! ### Claim C4 -/

/-- Whether the command run of a job fails: the runner raised (timeout)
or the reaped exit code is non-zero. -/
def runFailsB (p : ChildProc) (t : Option Nat) : Bool :=
  match runCmd p t with
  | .error _ => true
  | .ok (rc, _) => rc != 0

theorem tbTail_le (w : World) (p : String) : (tbTail w p).length ≤ 10 := by
  unfold tbTail
  rw [List.length_drop]
  omega

theorem processJob_failed (env : BatchEnv) (w : World) (p : String)
    (h : runFailsB (w.proc p) (effTimeout env) = true) :
    ∃ e : FailedRecord, processJob env w p = .failed e ∧ e.error ≠ "" ∧
      e.traceback_tail.length ≤ 10 := by
  unfold runFailsB at h
  cases hrc : runCmd (w.proc p) (effTimeout env) with
  | error msg =>
    refine ⟨⟨basename p, msg, tbTail w p⟩, ?_, runCmd_error_ne _ _ _ hrc, tbTail_le w p⟩
    simp only [processJob, hrc]
  | ok pr =>
    obtain ⟨rc, snip⟩ := pr
    rw [hrc] at h
    have h' : (rc != 0) = true := h
    refine ⟨⟨basename p, "Return code " ++ toString rc, tbTail w p⟩, ?_,
      strAppend2_ne "Return code " (toString rc) (by decide), tbTail_le w p⟩
    simp only [processJob, hrc, h', if_true]

/-- C4: failure isolation. (1) A job whose command fails (non-zero exit
or the runner's TimeoutError) yields a `FailedRecord` with a non-empty
error message and a trace tail of at most ten lines, persisted as the
job's `error.json` artifact. (2) A job's record depends only on that
job's own oracle entries (its child process, output listing and
traceback) and the shared directory layout, so other jobs' records are
exactly what they would be in isolation. (3) A run in which every
discovered job fails still returns normally (process exit 0) with an
empty `processed` list and one failed record per job. -/
theorem c4_isolation :
    (∀ (env : BatchEnv) (w : World) (p : String),
      runFailsB (w.proc p) (effTimeout env) = true →
      ∃ e : FailedRecord, processJob env w p = .failed e ∧ e.error ≠ "" ∧
        e.traceback_tail.length ≤ 10 ∧ artifactName (.failed e) = "error.json") ∧
    (∀ (env : BatchEnv) (w w' : World) (p : String),
      w.proc p = w'.proc p → w.outDirFiles p = w'.outDirFiles p →
      w.traceback p = w'.traceback p → w.dirExists = w'.dirExists →
      processJob env w p = processJob env w' p) ∧
    (∀ (env : BatchEnv) (w : World),
      w.dirExists (inputDirOf env) = true →
      (maybe_download_models (wsOf env w)).exitCode = none →
      discover (inputDirOf env) w.inputEntries ≠ [] →
      (∀ p ∈ discover (inputDirOf env) w.inputEntries,
        runFailsB (w.proc p) (effTimeout env) = true) →
      ∃ m : Manifest, (mainBatch env w).1 = .finished m ∧ m.processed = [] ∧
        m.failed.length = (discover (inputDirOf env) w.inputEntries).length) := by
  refine ⟨?_, ?_, ?_⟩
  · intro env w p h
    obtain ⟨e, he, hne, hlen⟩ := processJob_failed env w p h
    exact ⟨e, he, hne, hlen, rfl⟩
  · intro env w w' p hp ho ht hd
    unfold processJob tbTail buildJobCmd effModelDir outDirOf
    rw [hp, ho, ht, hd]
  · intro env w h1 h2 h3 hall
    rw [mainBatch_loop env w h1 h2 h3]
    refine ⟨_, rfl, ?_, ?_⟩
    · show List.filterMap getProc _ = []
      rw [List.filterMap_eq_nil_iff]
      intro a ha
      obtain ⟨p, hp, rfl⟩ := List.mem_map.mp ha
      obtain ⟨e, he, -, -⟩ := processJob_failed env w p (hall p hp)
      rw [he]
      rfl
    · have hc := filterMap_count
        ((discover (inputDirOf env) w.inputEntries).map (processJob env w))
      rw [List.length_map] at hc
      have hp0 : (List.filterMap getProc
          ((discover (inputDirOf env) w.inputEntries).map (processJob env w))).length = 0 := by
        rw [List.filterMap_eq_nil_iff.mpr]
        · rfl
        · intro a ha
          obtain ⟨p, hp, rfl⟩ := List.mem_map.mp ha
          obtain ⟨e, he, -, -⟩ := processJob_failed env w p (hall p hp)
          rw [he]
          rfl
      show (List.filterMap getFail _).length = _
      omega

/-- Environment and world for the C4 witness: two discovered jobs that
both fail (exit code 3). -/
def wC4 : World :=
  ⟨fun _ => true, ["a.pdb", "b.pdb"], false, true, fun _ => ⟨[], 1, 3⟩,
   fun _ => [], fun _ => ["line1", "line2"]⟩

/-- C4 (witness): the three isolation facts at concrete runs. -/
theorem c4_isolation_witness :
    (runFailsB (wC4.proc "/opt/ml/input/data/pdbs/a.pdb") (effTimeout envC1) = true ∧
     ∃ e : FailedRecord,
       processJob envC1 wC4 "/opt/ml/input/data/pdbs/a.pdb" = .failed e ∧ e.error ≠ "" ∧
       e.traceback_tail.length ≤ 10 ∧ artifactName (.failed e) = "error.json") ∧
    processJob envC1 wC4 "/opt/ml/input/data/pdbs/a.pdb"
      = processJob envC1 wC4 "/opt/ml/input/data/pdbs/a.pdb" ∧
    ∃ m : Manifest, (mainBatch envC1 wC4).1 = .finished m ∧ m.processed = [] ∧
      m.failed.length = (discover (inputDirOf envC1) wC4.inputEntries).length :=
  ⟨⟨rfl, c4_isolation.1 envC1 wC4 "/opt/ml/input/data/pdbs/a.pdb" rfl⟩,
   c4_isolation.2.1 envC1 wC4 wC4 "/opt/ml/input/data/pdbs/a.pdb" rfl rfl rfl rfl,
   c4_isolation.2.2 envC1 wC4 rfl rfl (by decide) (by decide)⟩

/-! ### Claim C5 -/

/-- C5: weight provisioning is idempotent. (1) With a remote source
configured, two consecutive `maybe_download_models` calls (the second
happening only if the first did not exit the process) issue at most one
sync. (2) A failing sync exits the process with code 1 and does not
write the marker. (3) Starting without a marker, a run that ends with
the marker present must have had its sync succeed — no run observes a
marker without a successful prior sync. -/
theorem c5_idempotent :
    (∀ s : WeightState, pyStrip s.s3_uri_env ≠ "" → (ensureTwice s).syncCalls ≤ 1) ∧
    (∀ s : WeightState, s.syncSucceeds = false → s.markerExists = false →
      pyStrip s.s3_uri_env ≠ "" →
      (maybe_download_models s).exitCode = some 1 ∧
      (maybe_download_models s).state.markerExists = false) ∧
    (∀ s : WeightState, s.markerExists = false →
      (maybe_download_models s).state.markerExists = true → s.syncSucceeds = true) := by
  refine ⟨?_, ?_, ?_⟩
  · intro s h
    obtain ⟨uri, mk, sy⟩ := s
    cases mk <;> cases sy <;>
      simp [ensureTwice, maybe_download_models, h]
  · intro s hsy hmk h
    obtain ⟨uri, mk, sy⟩ := s
    subst hsy
    subst hmk
    simp [maybe_download_models, h]
  · intro s hmk h
    obtain ⟨uri, mk, sy⟩ := s
    subst hmk
    by_cases hu : pyStrip uri = ""
    · simp [maybe_download_models, hu] at h
    · cases sy with
      | true => rfl
      | false => simp [maybe_download_models, hu] at h

/-- Weight state for the C5 witness: remote source set, no marker yet,
sync succeeding. -/
def wsC5 : WeightState := ⟨"s3://bucket/rfdiffusion-weights", false, true⟩

/-- Weight state whose sync fails. -/
def wsC5f : WeightState := ⟨"s3://bucket/rfdiffusion-weights", false, false⟩

/-- C5 (witness): idempotence and marker discipline at concrete states. -/
theorem c5_idempotent_witness :
    (pyStrip wsC5.s3_uri_env ≠ "" ∧ (ensureTwice wsC5).syncCalls ≤ 1) ∧
    ((maybe_download_models wsC5f).exitCode = some 1 ∧
     (maybe_download_models wsC5f).state.markerExists = false) ∧
    wsC5.syncSucceeds = true :=
  ⟨⟨by decide, c5_idempotent.1 wsC5 (by decide)⟩,
   c5_idempotent.2.1 wsC5f rfl rfl (by decide),
   c5_idempotent.2.2 wsC5 rfl rfl⟩

/-! ### Claim C6 -/

/-- Context for the synchronous-path claims. -/
def ctxC6 : SyncCtx :=
  ⟨"/opt/RFdiffusion", "/opt/RFdiffusion/scripts/run_inference.py", "/opt/ml/model",
   "python3", "/opt/RFdiffusion/scripts/download_models.sh"⟩

/-- Fields of the request body used in the C6 runs. -/
def kvsC6 : List (String × Json) := [("run_name", Json.str "t")]

/-- The request body used in the C6 runs. -/
def bodyC6 : Json := Json.obj kvsC6

/-- World whose external command times out. -/
def wC6 : SyncWorld :=
  ⟨"abcdef0123", none, none, none, none, [], true, 0, "", "", .timedOut, []⟩

/-- World whose external command exits 2. -/
def wC6a : SyncWorld :=
  ⟨"abcdef0123", none, none, none, none, [], true, 0, "", "", .exited 2 "so" "se", []⟩

/-- The command `predict` builds for `bodyC6` under `ctxC6`. -/
def cmdC6 : List String :=
  ["python3", "/opt/RFdiffusion/scripts/run_inference.py",
   "inference.output_prefix=/tmp/rfdiffusion/t", "inference.num_designs=1",
   "inference.model_directory_path=/opt/ml/model"]

/-- C6 (counterexample): when the external command times out, `predict`
raises `subprocess.TimeoutExpired`, not the RuntimeError execution
error; the HTTP adapter's RuntimeError branch is bypassed and the 500
response carries the generic "Unhandled server error" with a plain-text
detail instead of the structured command/stdout/stderr/exit-code
dictionary (a timed-out process has no exit code at all). -/
theorem c6_counterexample :
    wC6.exec = ExecOutcome.timedOut ∧
    (predict bodyC6 ctxC6 wC6).1 = .timeoutExpired cmdC6 7200 ∧
    ¬ (∃ d : ExecDetails,
        (predict bodyC6 ctxC6 wC6).1 = .runtimeError "RFdiffusion execution failed" d ∧
        invocations (.parsed bodyC6) ctxC6 wC6
          = ⟨500, .errDetails "RFdiffusion execution failed" (.structured d)⟩) ∧
    invocations (.parsed bodyC6) ctxC6 wC6
      = ⟨500, .errDetails "Unhandled server error" (.text (timeoutText cmdC6 7200))⟩ := by
  refine ⟨rfl, rfl, ?_, rfl⟩
  rintro ⟨d, hd, -⟩
  have he : (predict bodyC6 ctxC6 wC6).1 = .timeoutExpired cmdC6 7200 := rfl
  rw [he] at hd
  exact PredictResult.noConfusion hd

/-- The command the validated `predict` run builds from a dict body. -/
def syncCmdOf (kvs : List (String × Json)) (ctx : SyncCtx) (w : SyncWorld)
    (nd : Int) (items : List Json) : List String :=
  buildSyncCmd ctx (Json.obj kvs)
    (resolveOutPref (Json.obj kvs) w (resolveRunName (jGet (Json.obj kvs) "run_name") w.uuidHex))
    nd
    (if pyTruthy ((jGet (Json.obj kvs) "model_directory").getD .null)
     then jsonPathStr ((jGet (Json.obj kvs) "model_directory").getD .null)
     else ctx.model_dir)
    items

/-- C6 (amended): for a validated request, a non-zero exit makes
`predict` raise the RuntimeError carrying the full command, captured
stdout/stderr and the exit code, which the adapter maps to a 500 with
those structured details; but a timeout or a launch failure propagates
as `TimeoutExpired`/`OSError`, which the adapter's generic handler maps
to a 500 "Unhandled server error" whose details are a plain string
without the structured diagnostics. -/
theorem c6_amended (kvs : List (String × Json)) (ctx : SyncCtx) (w : SyncWorld)
    (h : predictReachesRunB (Json.obj kvs) ctx w = true) :
    ∃ (cmd : List String) (tmo : Int),
      (∀ rc out err, w.exec = .exited rc out err → rc ≠ 0 →
        (predict (Json.obj kvs) ctx w).1
          = .runtimeError "RFdiffusion execution failed" ⟨some cmd, out, err, rc⟩ ∧
        invocations (.parsed (Json.obj kvs)) ctx w
          = ⟨500, .errDetails "RFdiffusion execution failed"
              (.structured ⟨some cmd, out, err, rc⟩)⟩) ∧
      (w.exec = .timedOut →
        (predict (Json.obj kvs) ctx w).1 = .timeoutExpired cmd tmo ∧
        invocations (.parsed (Json.obj kvs)) ctx w
          = ⟨500, .errDetails "Unhandled server error" (.text (timeoutText cmd tmo))⟩) ∧
      (∀ m, w.exec = .launchFailed m →
        (predict (Json.obj kvs) ctx w).1 = .osError m ∧
        invocations (.parsed (Json.obj kvs)) ctx w
          = ⟨500, .errDetails "Unhandled server error" (.text m)⟩) := by
  obtain ⟨nd, tmo, items, hnd, htmo, hitems, heq⟩ := predict_run_shape kvs ctx w h
  refine ⟨syncCmdOf kvs ctx w nd items, tmo, ?_, ?_, ?_⟩
  · intro rc out err hexec hrc
    have h' : (rc != 0) = true := by simpa using hrc
    have hp : (predict (Json.obj kvs) ctx w).1
        = .runtimeError "RFdiffusion execution failed"
            ⟨some (syncCmdOf kvs ctx w nd items), out, err, rc⟩ := by
      rw [heq]
      simp [predictRun, syncCmdOf, hexec, h']
    exact ⟨hp, by simp only [invocations]; rw [hp]⟩
  · intro hexec
    have hp : (predict (Json.obj kvs) ctx w).1
        = .timeoutExpired (syncCmdOf kvs ctx w nd items) tmo := by
      rw [heq]
      simp [predictRun, syncCmdOf, hexec]
    exact ⟨hp, by simp only [invocations]; rw [hp]⟩
  · intro m hexec
    have hp : (predict (Json.obj kvs) ctx w).1 = .osError m := by
      rw [heq]
      simp [predictRun, hexec]
    exact ⟨hp, by simp only [invocations]; rw [hp]⟩

/-- C6 (witness): the amended behaviour at a concrete request whose
command exits 2, which yields the structured 500, and at the concrete
timed-out request. -/
theorem c6_amended_witness :
    (predictReachesRunB (Json.obj kvsC6) ctxC6 wC6a = true ∧
     ∃ (cmd : List String) (tmo : Int),
       (∀ rc out err, wC6a.exec = .exited rc out err → rc ≠ 0 →
         (predict (Json.obj kvsC6) ctxC6 wC6a).1
           = .runtimeError "RFdiffusion execution failed" ⟨some cmd, out, err, rc⟩ ∧
         invocations (.parsed (Json.obj kvsC6)) ctxC6 wC6a
           = ⟨500, .errDetails "RFdiffusion execution failed"
               (.structured ⟨some cmd, out, err, rc⟩)⟩) ∧
       (wC6a.exec = .timedOut →
         (predict (Json.obj kvsC6) ctxC6 wC6a).1 = .timeoutExpired cmd tmo ∧
         invocations (.parsed (Json.obj kvsC6)) ctxC6 wC6a
           = ⟨500, .errDetails "Unhandled server error" (.text (timeoutText cmd tmo))⟩) ∧
       (∀ m, wC6a.exec = .launchFailed m →
         (predict (Json.obj kvsC6) ctxC6 wC6a).1 = .osError m ∧
         invocations (.parsed (Json.obj kvsC6)) ctxC6 wC6a
           = ⟨500, .errDetails "Unhandled server error" (.text m)⟩)) ∧
    (predictReachesRunB (Json.obj kvsC6) ctxC6 wC6 = true ∧
     ∃ (cmd : List String) (tmo : Int),
       (∀ rc out err, wC6.exec = .exited rc out err → rc ≠ 0 →
         (predict (Json.obj kvsC6) ctxC6 wC6).1
           = .runtimeError "RFdiffusion execution failed" ⟨some cmd, out, err, rc⟩ ∧
         invocations (.parsed (Json.obj kvsC6)) ctxC6 wC6
           = ⟨500, .errDetails "RFdiffusion execution failed"
               (.structured ⟨some cmd, out, err, rc⟩)⟩) ∧
       (wC6.exec = .timedOut →
         (predict (Json.obj kvsC6) ctxC6 wC6).1 = .timeoutExpired cmd tmo ∧
         invocations (.parsed (Json.obj kvsC6)) ctxC6 wC6
           = ⟨500, .errDetails "Unhandled server error" (.text (timeoutText cmd tmo))⟩) ∧
       (∀ m, wC6.exec = .launchFailed m →
         (predict (Json.obj kvsC6) ctxC6 wC6).1 = .osError m ∧
         invocations (.parsed (Json.obj kvsC6)) ctxC6 wC6
           = ⟨500, .errDetails "Unhandled server error" (.text m)⟩)) :=
  ⟨⟨by decide, c6_amended kvsC6 ctxC6 wC6a (by decide)⟩,
   ⟨by decide, c6_amended kvsC6 ctxC6 wC6 (by decide)⟩⟩

/-! ### Claim C7 -/

/-- Batch environment with a one-second timeout. -/
def envC7 : BatchEnv := { RFD_TIMEOUT_SECONDS := some 1 }

/-- World for C7: one job whose child process writes no output and only
exits (closing its stdout) at time 5, with exit code 0. -/
def wC7 : World :=
  ⟨fun _ => true, ["a.pdb"], false, true, fun _ => ⟨[], 5, 0⟩,
   fun _ => [], fun _ => []⟩

/-- C7 (counterexample): with a 1-second timeout, a silent command
running for 5 seconds is never force-terminated: `readline` blocks until
end-of-file and the loop breaks before any timeout check, so the runner
returns exit code 0 and the job lands in `processed`, not `failed`. -/
theorem c7_counterexample :
    effTimeout envC7 = some 1 ∧
    (wC7.proc "/opt/ml/input/data/pdbs/a.pdb").exitTime = 5 ∧
    runCmd (wC7.proc "/opt/ml/input/data/pdbs/a.pdb") (effTimeout envC7) = .ok (0, []) ∧
    ∃ s : ProcessedRecord,
      (mainBatch envC7 wC7).1 = .finished ⟨[s], [], some ⟨1, 0, 1⟩, none⟩ :=
  ⟨rfl, rfl, rfl, ⟨_, rfl⟩⟩

theorem effTimeout_pos (env : BatchEnv) (T : Nat) (h : effTimeout env = some T) : T ≠ 0 := by
  simp only [effTimeout] at h
  split at h
  · cases h
  · rename_i ht
    cases h
    exact ht

/-- C7 (amended): the runner enforces the timeout only at line reads:
(1) if any output line arrives strictly after the deadline the child is
killed, the TimeoutError is raised and the job is recorded as a failed
record; (2) a command all of whose output precedes the deadline is
entirely unaffected by the timeout mechanism, whatever its exit time —
in particular a command that exits late but silently is reaped normally
and can still be recorded as processed. -/
theorem c7_amended :
    (∀ (env : BatchEnv) (w : World) (p : String) (T : Nat),
      effTimeout env = some T →
      (∃ e ∈ (w.proc p).events, T < e.1) →
      runCmd (w.proc p) (effTimeout env) = .error (timeoutMsg T) ∧
      ∃ fr : FailedRecord, processJob env w p = .failed fr ∧ fr.error = timeoutMsg T) ∧
    (∀ (p : ChildProc) (T : Nat),
      (∀ e ∈ p.events, e.1 ≤ p.exitTime) → p.exitTime ≤ T →
      runCmd p (some T) = runCmd p none) := by
  constructor
  · intro env w p T hT hover
    have hne := effTimeout_pos env T hT
    have herr : runCmd (w.proc p) (effTimeout env) = .error (timeoutMsg T) := by
      rw [hT]
      exact runCmdLoop_overdue (w.proc p).exitCode T hne (w.proc p).events [] hover
    refine ⟨herr, ⟨basename p, timeoutMsg T, tbTail w p⟩, ?_, rfl⟩
    simp only [processJob, herr]
  · intro p T hwf hexit
    exact runCmdLoop_onTime p.exitCode T p.events []
      (fun e he => le_trans (hwf e he) hexit)

/-- Environment and worlds for the C7 witness: a job that emits a line
at time 3, past the 2-second timeout, and a process whose single line
precedes its exit within the deadline. -/
def envC7w : BatchEnv := { RFD_TIMEOUT_SECONDS := some 2 }

/-- World whose job emits output after the deadline. -/
def wC7w : World :=
  ⟨fun _ => true, ["a.pdb"], false, true, fun _ => ⟨[(3, "late line")], 4, 0⟩,
   fun _ => [], fun _ => []⟩

/-- A quick process: one line at time 1, exit at time 2. -/
def procC7 : ChildProc := ⟨[(1, "hello")], 2, 0⟩

/-- C7 (witness): the amended timeout behaviour at concrete runs. -/
theorem c7_amended_witness :
    (effTimeout envC7w = some 2 ∧
     runCmd (wC7w.proc "/opt/ml/input/data/pdbs/a.pdb") (effTimeout envC7w)
       = .error (timeoutMsg 2) ∧
     ∃ fr : FailedRecord,
       processJob envC7w wC7w "/opt/ml/input/data/pdbs/a.pdb" = .failed fr ∧
       fr.error = timeoutMsg 2) ∧
    runCmd procC7 (some 2) = runCmd procC7 none :=
  by
  have h := c7_amended.1 envC7w wC7w "/opt/ml/input/data/pdbs/a.pdb" 2 rfl
    ⟨(3, "late line"), by decide, by decide⟩
  exact ⟨⟨rfl, h.1, h.2⟩, c7_amended.2 procC7 2 (by decide) (by decide)⟩

/-! ### Claim C8 -/

/-- Discovery rule written in the claim: every entry of the input
directory whose name has an allowed extension, with no hidden-file
exclusion. -/
def discoverByClaim (dir : String) (entries : List String) : List String :=
  sortStr ((entries.filter allowedExt).map (fun n => pyJoin dir n))

/-- C8 (counterexample): a hidden file `.a.pdb` has an allowed extension
and is an entry of the input directory, but `glob("*")` skips dotfiles,
so discovery returns nothing while the claim's reading returns the
file. -/
theorem c8_counterexample :
    allowedExt ".a.pdb" = true ∧
    discover "/opt/ml/input/data/pdbs" [".a.pdb"] = [] ∧
    discoverByClaim "/opt/ml/input/data/pdbs" [".a.pdb"]
      = ["/opt/ml/input/data/pdbs/.a.pdb"] := by
  refine ⟨by decide, by decide, by decide⟩

/-- C8 (amended): discovery returns exactly the joined paths of the
NON-HIDDEN entries (name not starting with a dot — the `glob("*")`
rule) whose lowercased path ends with one of `.pdb`, `.cif`, `.ent`,
`.mmcif`; the result is sorted in Python's string order, so processing
order is deterministic; and when the input directory does not exist the
batch exits with code 1 before any sync call or job run. -/
theorem c8_amended :
    (∀ (dir : String) (entries : List String) (x : String),
      x ∈ discover dir entries ↔
        ∃ nm, nm ∈ entries ∧ pyStartsWith nm "." = false ∧
          allowedExt (pyJoin dir nm) = true ∧ x = pyJoin dir nm) ∧
    (∀ (dir : String) (entries : List String),
      List.Sorted strLe (discover dir entries)) ∧
    (∀ (env : BatchEnv) (w : World),
      w.dirExists (inputDirOf env) = false →
      mainBatch env w = (.exitFail 1, ⟨0, []⟩)) := by
  refine ⟨?_, ?_, ?_⟩
  · intro dir entries x
    unfold discover glob_star
    rw [mem_sortStr]
    simp only [List.mem_filter, List.mem_map, Bool.not_eq_true']
    constructor
    · rintro ⟨⟨nm, ⟨hnm, hhid⟩, rfl⟩, hext⟩
      exact ⟨nm, hnm, hhid, hext, rfl⟩
    · rintro ⟨nm, hnm, hhid, hext, rfl⟩
      exact ⟨⟨nm, ⟨hnm, hhid⟩, rfl⟩, hext⟩
  · intro dir entries
    exact sortStr_sorted _
  · intro env w h
    unfold mainBatch
    simp [h]

/-- World whose input directory is missing. -/
def wC8 : World :=
  ⟨fun _ => false, ["a.pdb"], false, true, fun _ => ⟨[], 0, 0⟩, fun _ => [], fun _ => []⟩

/-- C8 (witness): discovery membership, sortedness and the missing-dir
abort at concrete inputs. -/
theorem c8_amended_witness :
    ("/d/b.pdb" ∈ discover "/d" ["b.pdb", ".c.pdb"] ↔
      ∃ nm, nm ∈ ["b.pdb", ".c.pdb"] ∧ pyStartsWith nm "." = false ∧
        allowedExt (pyJoin "/d" nm) = true ∧ "/d/b.pdb" = pyJoin "/d" nm) ∧
    List.Sorted strLe (discover "/d" ["b.pdb", "a.cif", "x.txt"]) ∧
    (wC8.dirExists (inputDirOf envC1) = false ∧
     mainBatch envC1 wC8 = (.exitFail 1, ⟨0, []⟩)) :=
  ⟨c8_amended.1 "/d" ["b.pdb", ".c.pdb"] "/d/b.pdb",
   c8_amended.2.1 "/d" ["b.pdb", "a.cif", "x.txt"],
   ⟨rfl, c8_amended.2.2 envC1 wC8 rfl⟩⟩

/-! ### Claim C9 -/

/-- C9: a request body that is None or not a dictionary is rejected by
`predict` with a ValueError (for None) or TypeError (otherwise) before
any side effect: the trace shows zero subprocess launches, no
directories created, and no main run; the HTTP adapter maps the
exception to status 400. -/
theorem c9_validation (ctx : SyncCtx) (w : SyncWorld) (body : Json)
    (h : body.isObj = false) :
    (predict body ctx w).2 = ⟨0, [], false, none⟩ ∧
    ((body = Json.null ∧
        (predict body ctx w).1 = .valueError "Request payload must be a JSON object.") ∨
      (body ≠ Json.null ∧
        (predict body ctx w).1 = .typeError "Request payload must be a JSON dictionary.")) ∧
    (invocations (.parsed body) ctx w).status = 400 := by
  cases body with
  | null => exact ⟨rfl, .inl ⟨rfl, rfl⟩, rfl⟩
  | obj kvs => exact absurd h (by simp [Json.isObj])
  | bool b => exact ⟨rfl, .inr ⟨fun hx => Json.noConfusion hx, rfl⟩, rfl⟩
  | num n => exact ⟨rfl, .inr ⟨fun hx => Json.noConfusion hx, rfl⟩, rfl⟩
  | str s => exact ⟨rfl, .inr ⟨fun hx => Json.noConfusion hx, rfl⟩, rfl⟩
  | arr l => exact ⟨rfl, .inr ⟨fun hx => Json.noConfusion hx, rfl⟩, rfl⟩

/-- C9 (witness): the validation rejection for the None body and for a
string body, at the concrete context and world of the C6 runs. -/
theorem c9_validation_witness :
    (Json.isObj Json.null = false ∧
     (predict Json.null ctxC6 wC6).2 = ⟨0, [], false, none⟩ ∧
     (invocations (.parsed Json.null) ctxC6 wC6).status = 400) ∧
    (Json.isObj (Json.str "contigs") = false ∧
     (predict (Json.str "contigs") ctxC6 wC6).2 = ⟨0, [], false, none⟩ ∧
     (predict (Json.str "contigs") ctxC6 wC6).1
        = .typeError "Request payload must be a JSON dictionary." ∧
     (invocations (.parsed (Json.str "contigs")) ctxC6 wC6).status = 400) := by
  have h1 := c9_validation ctxC6 wC6 Json.null rfl
  have h2 := c9_validation ctxC6 wC6 (Json.str "contigs") rfl
  refine ⟨⟨rfl, h1.1, h1.2.2⟩, ⟨rfl, h2.1, ?_, h2.2.2⟩⟩
  rcases h2.2.1 with ⟨hx, -⟩ | ⟨-, hty⟩
  · exact absurd hx (fun hc => Json.noConfusion hc)
  · exact hty

/-! ### Claim C10 -/

/-- C10: (1) in the synchronous path a falsy `timeout_seconds` (0,
absent, etc.) is never honoured as "no timeout": the timeout handed to
the subprocess is `int()` of the `RF_TIMEOUT_SECONDS` variable when that
is set and non-empty, and 7200 otherwise, and it is always `some` value
(finite); (2) whenever the main subprocess runs at all, its timeout is
finite; (3) in the batch path `RFD_TIMEOUT_SECONDS` unset or 0 makes the
effective timeout `None`; (4) with timeout `None` the runner never
raises and always reaps the exit code. -/
theorem c10_finite_sync_timeout :
    (∀ (kvs : List (String × Json)) (ctx : SyncCtx) (w : SyncWorld),
      predictReachesRunB (Json.obj kvs) ctx w = true →
      pyTruthy ((jGet (Json.obj kvs) "timeout_seconds").getD .null) = false →
      (predict (Json.obj kvs) ctx w).2.timeoutUsed
        = pyInt (match w.env_RF_TIMEOUT_SECONDS with
                 | some s => if s ≠ "" then Json.str s else Json.num 7200
                 | none => Json.num 7200) ∧
      ((predict (Json.obj kvs) ctx w).2.timeoutUsed).isSome = true) ∧
    (∀ (body : Json) (ctx : SyncCtx) (w : SyncWorld),
      (predict body ctx w).2.ranMain = true →
      ((predict body ctx w).2.timeoutUsed).isSome = true) ∧
    (∀ env : BatchEnv,
      env.RFD_TIMEOUT_SECONDS = none ∨ env.RFD_TIMEOUT_SECONDS = some 0 →
      effTimeout env = none) ∧
    (∀ p : ChildProc, ∃ snip, runCmd p none = .ok (p.exitCode, snip)) := by
  refine ⟨?_, ?_, ?_, ?_⟩
  · intro kvs ctx w h hfalsy
    obtain ⟨nd, tmo, items, hnd, htmo, hitems, heq⟩ := predict_run_shape kvs ctx w h
    have hchain : timeoutChain (jGet (Json.obj kvs) "timeout_seconds")
        w.env_RF_TIMEOUT_SECONDS
        = (match w.env_RF_TIMEOUT_SECONDS with
           | some s => if s ≠ "" then Json.str s else Json.num 7200
           | none => Json.num 7200) := by
      simp only [timeoutChain, hfalsy, Bool.false_eq_true, if_false]
    constructor
    · rw [heq, (predictRun_trace kvs ctx w nd tmo items).1, ← htmo, hchain]
    · rw [heq, (predictRun_trace kvs ctx w nd tmo items).1]
      rfl
  · exact predict_finite_timeout
  · intro env h
    rcases h with h | h <;> simp [effTimeout, h]
  · intro p
    exact runCmdLoop_noTimeout p.exitCode p.events []

/-- Body whose `timeout_seconds` is the falsy 0. -/
def kvsC10 : List (String × Json) := [("timeout_seconds", Json.num 0)]

/-- World with `RF_TIMEOUT_SECONDS=60` whose command exits 0. -/
def wC10 : SyncWorld :=
  ⟨"abcdef0123", none, some "60", none, none, [], true, 0, "", "", .exited 0 "" "", []⟩

/-- Batch environment with `RFD_TIMEOUT_SECONDS=0`. -/
def envC10z : BatchEnv := { RFD_TIMEOUT_SECONDS := some 0 }

/-- A child process exiting far in the future. -/
def procC10 : ChildProc := ⟨[(1, "x")], 9999, 0⟩

/-- C10 (witness): the finite-timeout facts at concrete inputs:
`timeout_seconds=0` with `RF_TIMEOUT_SECONDS=60` yields a 60-second
subprocess timeout, the timed-out C6 run had a finite timeout, the batch
`RFD_TIMEOUT_SECONDS=0` run has no timeout, and a late silent process is
reaped normally under timeout `None`. -/
theorem c10_finite_witness :
    (predictReachesRunB (Json.obj kvsC10) ctxC6 wC10 = true ∧
     pyTruthy ((jGet (Json.obj kvsC10) "timeout_seconds").getD .null) = false ∧
     (predict (Json.obj kvsC10) ctxC6 wC10).2.timeoutUsed = some 60) ∧
    ((predict (Json.obj kvsC6) ctxC6 wC6).2.ranMain = true ∧
     ((predict (Json.obj kvsC6) ctxC6 wC6).2.timeoutUsed).isSome = true) ∧
    effTimeout envC10z = none ∧
    (∃ snip, runCmd procC10 none = .ok (procC10.exitCode, snip)) := by
  refine ⟨⟨by decide, by decide, ?_⟩, ?_, ?_, ?_⟩
  · exact ((c10_finite_sync_timeout.1 kvsC10 ctxC6 wC10 (by decide) (by decide)).1).trans
      (by decide)
  · exact ⟨rfl, c10_finite_sync_timeout.2.1 (Json.obj kvsC6) ctxC6 wC6 rfl⟩
  · exact c10_finite_sync_timeout.2.2.1 envC10z (Or.inr rfl)
  · exact c10_finite_sync_timeout.2.2.2 procC10
